import Mathlib

/-!
Shallow embedding of the sb1123 comp-pipeline scripts (`listings_build.py`,
`build_subdiv_comps.py`, `build_comps.py`) and proofs about the behaviour of
their estimators.  Python floats are modelled as rationals (reals where a
fractional power or square root occurs), Python `round` as round-half-to-even,
Python dicts keyed by zone/zip as functions into lists (absent key = `[]`,
matching how the dicts are populated via `setdefault`/`append`), and the
spatial-grid dicts as the grouping of the underlying comp list by grid cell.
-/

namespace SB1123

/-- Python `round` on a rational: round half to even (banker's rounding). -/
def pyroundQ (q : ℚ) : ℤ :=
  let f := ⌊q⌋
  if q - f < 1/2 then f
  else if 1/2 < q - f then f + 1
  else if f % 2 = 0 then f else f + 1

/-- Python `round` on a real: round half to even (banker's rounding). -/
noncomputable def pyroundR (x : ℝ) : ℤ :=
  let f := ⌊x⌋
  if x - f < 1/2 then f
  else if 1/2 < x - f then f + 1
  else if f % 2 = 0 then f else f + 1

theorem pyroundQ_intCast (z : ℤ) : pyroundQ z = z := by
  simp [pyroundQ]

theorem pyroundR_intCast (z : ℤ) : pyroundR z = z := by
  simp [pyroundR]

/-- Python `round(x, 2)` on a rational (used for the miles readout). -/
def roundTo2 (q : ℚ) : ℚ := (pyroundQ (q * 100) : ℚ) / 100

/-- `p75` as defined inside `find_exit_ppsf` / `find_newcon_ppsf`
(`listings_build.py` lines 139-141, 249-251):
`vals.sort(); return round(vals[int(len(vals) * 0.75)])`.
The values are integer dollars-per-square-foot, so Python `round` is the
identity; `int(len(vals) * 0.75)` is `⌊0.75 n⌋ = 3n/4` in natural division. -/
def p75 (vals : List ℤ) : ℤ :=
  (List.insertionSort (· ≤ ·) vals).getD (3 * vals.length / 4) 0

/-- `p75` for rational-valued inputs (monthly rents in
`find_rental_estimate`), where Python `round` does round to an integer. -/
def p75Q (vals : List ℚ) : ℤ :=
  pyroundQ ((List.insertionSort (· ≤ ·) vals).getD (3 * vals.length / 4) 0)

/-- `median_val` from `find_rental_estimate`:
`vals.sort(); return vals[len(vals) // 2]`. -/
def median_val (vals : List ℤ) : ℤ :=
  (List.insertionSort (· ≤ ·) vals).getD (vals.length / 2) 0

theorem p75_index_lt (n : ℕ) (h : 0 < n) : 3 * n / 4 < n := by
  omega

/-- C4: for every non-empty comp set of size `n`, the exit estimator's `p75`
helper returns the element at zero-based index `⌊0.75 n⌋ = 3n/4` of the
ascending-sorted list of the comps' price-per-unit-area values: the
sort used is an ascending-sorted permutation of the input, the index
`3 n / 4` is in range, and the returned value is the element there. -/
theorem p75_selects_floor_75th_index (vals : List ℤ) (h : vals ≠ []) :
    List.Sorted (· ≤ ·) (List.insertionSort (· ≤ ·) vals) ∧
    (List.insertionSort (· ≤ ·) vals).Perm vals ∧
    3 * vals.length / 4 < (List.insertionSort (· ≤ ·) vals).length ∧
    p75 vals = (List.insertionSort (· ≤ ·) vals).getD (3 * vals.length / 4) 0 := by
  refine ⟨List.sorted_insertionSort _ _, List.perm_insertionSort _ _, ?_, rfl⟩
  rw [(List.perm_insertionSort (· ≤ ·) vals).length_eq]
  exact p75_index_lt _ (List.length_pos.mpr h)

/-- C4 witness: on the 4-element set `[100, 200, 300, 400]` the convention
selects sorted index `⌊0.75 * 4⌋ = 3`, i.e. the value `400` — which is
neither the mean (`250`) nor the median-index value (`300`). -/
theorem p75_selects_floor_75th_index_witness :
    ([100, 200, 300, 400] : List ℤ) ≠ [] ∧
    p75 [100, 200, 300, 400] =
      (List.insertionSort (· ≤ ·) [(100 : ℤ), 200, 300, 400]).getD 3 0 ∧
    p75 [100, 200, 300, 400] = 400 ∧
    (400 : ℤ) ≠ (100 + 200 + 300 + 400) / 4 ∧
    (400 : ℤ) ≠ median_val [100, 200, 300, 400] := by
  have h : ([100, 200, 300, 400] : List ℤ) ≠ [] := by decide
  refine ⟨h, ?_, by decide, by decide, by decide⟩
  exact (p75_selects_floor_75th_index [100, 200, 300, 400] h).2.2.2

/-! ### Spatial comp grid (`listings_build.py`)

`GRID_SIZE = 0.01`; a comp is indexed under cell
`(math.floor(lat / GRID_SIZE), math.floor(lng / GRID_SIZE))`.  A grid dict is
modelled by the list of comps it was built from: the dict's entry for a cell
is exactly the sublist of comps whose cell is that key, in insertion order. -/

/-- A sold comp as stored in the spatial grids (`lat, lng, ppsf, sqft`, plus
`yb` for the new-construction grids). -/
structure Comp where
  lat : ℚ
  lng : ℚ
  ppsf : ℤ
  sqft : ℚ
  yb : ℤ
deriving DecidableEq, Repr

def GRID_SIZE : ℚ := 1/100
def MIN_COMPS : ℕ := 5
def COMP_SQFT_MIN : ℚ := 1300
def COMP_SQFT_MAX : ℚ := 3500
def SEARCH_RADII_DEG : List ℚ := [7/1000, 15/1000]
def NEWCON_RADII : List ℚ := [7/1000, 15/1000, 22/1000, 29/1000]
def NEWCON_MIN : ℕ := 3

/-- Grid cell of a coordinate pair. -/
def compCell (e : Comp) : ℤ × ℤ := (⌊e.lat / GRID_SIZE⌋, ⌊e.lng / GRID_SIZE⌋)

/-- Python `range(a, b + 1)` over integers. -/
def intRange (a b : ℤ) : List ℤ :=
  (List.range (b - a + 1).toNat).map (fun i : ℕ => a + (i : ℤ))

theorem mem_intRange {a b z : ℤ} : z ∈ intRange a b ↔ a ≤ z ∧ z ≤ b := by
  unfold intRange
  rw [List.mem_map]
  constructor
  · rintro ⟨i, hi, rfl⟩
    rw [List.mem_range] at hi
    omega
  · rintro ⟨h1, h2⟩
    refine ⟨(z - a).toNat, ?_, ?_⟩
    · rw [List.mem_range]; omega
    · omega

theorem intRange_nodup (a b : ℤ) : (intRange a b).Nodup := by
  unfold intRange
  refine List.Nodup.map ?_ (List.nodup_range _)
  intro i j h
  have h2 : a + (i : ℤ) = a + (j : ℤ) := h
  omega

/-- The block of grid cells visited by the nested
`for dr in range(-cells, cells+1): for dc in range(-cells, cells+1)` loops. -/
def cellBlock (cells grow gcol : ℤ) : List (ℤ × ℤ) :=
  (intRange (-cells) cells).flatMap (fun dr =>
    (intRange (-cells) cells).map (fun dc => (grow + dr, gcol + dc)))

theorem mem_cellBlock {cells grow gcol : ℤ} {p : ℤ × ℤ} :
    p ∈ cellBlock cells grow gcol ↔
      grow - cells ≤ p.1 ∧ p.1 ≤ grow + cells ∧
      gcol - cells ≤ p.2 ∧ p.2 ≤ gcol + cells := by
  simp only [cellBlock, List.mem_flatMap, List.mem_map, mem_intRange]
  constructor
  · rintro ⟨dr, ⟨h1, h2⟩, dc, ⟨h3, h4⟩, rfl⟩; omega
  · rintro ⟨h1, h2, h3, h4⟩
    exact ⟨p.1 - grow, by omega, p.2 - gcol, by omega, by simp⟩

theorem flatMap_pair_nodup (rows cols : List ℤ) (grow gcol : ℤ)
    (hrows : rows.Nodup) (hcols : cols.Nodup) :
    (rows.flatMap (fun dr => cols.map (fun dc => (grow + dr, gcol + dc)))).Nodup := by
  induction rows with
  | nil => simp
  | cons r rs ih =>
    have hr1 : r ∉ rs := (List.nodup_cons.mp hrows).1
    have hr2 : rs.Nodup := (List.nodup_cons.mp hrows).2
    simp only [List.flatMap_cons]
    refine List.Nodup.append ?_ (ih hr2) ?_
    · refine List.Nodup.map ?_ hcols
      intro a b h
      simp only [Prod.mk.injEq] at h
      omega
    · rw [List.disjoint_left]
      rintro p hp hp2
      simp only [List.mem_map] at hp
      obtain ⟨dc, _, rfl⟩ := hp
      simp only [List.mem_flatMap, List.mem_map] at hp2
      obtain ⟨r', hr', dc', _, heq⟩ := hp2
      simp only [Prod.mk.injEq] at heq
      have hrr : r' = r := by omega
      exact hr1 (hrr ▸ hr')

theorem cellBlock_nodup (cells grow gcol : ℤ) : (cellBlock cells grow gcol).Nodup :=
  flatMap_pair_nodup _ _ _ _ (intRange_nodup _ _) (intRange_nodup _ _)

/-- `collect_from_grid` (`find_newcon_ppsf`, `listings_build.py` 253-263) and
the identical inline grid scans in `find_exit_ppsf` (152-162, 181-191):
`cells = int(radius / GRID_SIZE) + 1`, gather the candidate comps from the
`(2*cells+1)²` cell block, and keep those with
`|Δlat| ≤ radius and |Δlng| ≤ radius`. -/
def collect_from_grid (entries : List Comp) (lat lng radius : ℚ) : List Comp :=
  let cells := ⌊radius / GRID_SIZE⌋ + 1
  (cellBlock cells ⌊lat / GRID_SIZE⌋ ⌊lng / GRID_SIZE⌋).flatMap (fun cell =>
    (entries.filter (fun e => compCell e = cell)).filter
      (fun e => decide (|e.lat - lat| ≤ radius) && decide (|e.lng - lng| ≤ radius)))

theorem filter_or_disjoint_perm {α : Type} (p q : α → Bool) (l : List α)
    (hdisj : ∀ a ∈ l, ¬(p a = true ∧ q a = true)) :
    (l.filter (fun a => p a || q a)).Perm (l.filter p ++ l.filter q) := by
  induction l with
  | nil => simp
  | cons a t ih =>
    have hd : ∀ x ∈ t, ¬(p x = true ∧ q x = true) :=
      fun x hx => hdisj x (List.mem_cons_of_mem _ hx)
    rcases hp : p a with _ | _ <;> rcases hq : q a with _ | _
    · simp only [List.filter_cons, hp, hq, Bool.or_self, cond_false]
      exact ih hd
    · simp only [List.filter_cons, hp, hq, Bool.or_true, cond_true, cond_false]
      exact ((ih hd).cons _).trans List.perm_middle.symm
    · simp only [List.filter_cons, hp, hq, Bool.true_or, cond_true, cond_false,
        List.cons_append]
      exact (ih hd).cons _
    · exact absurd ⟨hp, hq⟩ (hdisj a (List.mem_cons_self _ _))

theorem flatMap_cells_filter_perm {α κ : Type} [DecidableEq κ] (key : α → κ)
    (box : α → Bool) (l : List α) (ks : List κ) (hnd : ks.Nodup) :
    (ks.flatMap (fun k => (l.filter (fun e => decide (key e = k))).filter box)).Perm
      (l.filter (fun e => ks.any (fun k => decide (key e = k)) && box e)) := by
  induction ks with
  | nil => simp
  | cons k ks ih =>
    have hk : k ∉ ks := (List.nodup_cons.mp hnd).1
    have hnd2 : ks.Nodup := (List.nodup_cons.mp hnd).2
    simp only [List.flatMap_cons]
    have hhead : (l.filter (fun e => decide (key e = k))).filter box =
        l.filter (fun e => decide (key e = k) && box e) := by
      rw [List.filter_filter]
      exact List.filter_congr (fun e _ => Bool.and_comm _ _)
    have hsplit : (l.filter (fun e =>
          (k :: ks).any (fun x => decide (key e = x)) && box e)).Perm
        (l.filter (fun e => decide (key e = k) && box e) ++
          l.filter (fun e => ks.any (fun x => decide (key e = x)) && box e)) := by
      have heq : l.filter (fun e =>
            (k :: ks).any (fun x => decide (key e = x)) && box e) =
          l.filter (fun e =>
            (decide (key e = k) && box e) ||
              (ks.any (fun x => decide (key e = x)) && box e)) := by
        refine List.filter_congr (fun e _ => ?_)
        rcases h1 : decide (key e = k) with _ | _ <;>
          rcases h2 : ks.any (fun x => decide (key e = x)) with _ | _ <;>
          simp [List.any_cons, h1, h2]
      rw [heq]
      refine filter_or_disjoint_perm _ _ _ (fun e _ hcontra => ?_)
      obtain ⟨ha, hb⟩ := hcontra
      simp only [Bool.and_eq_true, decide_eq_true_eq, List.any_eq_true] at ha hb
      obtain ⟨x, hx, hxe⟩ := hb.1
      exact hk (ha.1 ▸ hxe ▸ hx)
    rw [hhead]
    exact (List.Perm.append (List.Perm.refl _) (ih hnd2)).trans hsplit.symm

/-- One axis of the coverage argument: a comp within `radius` of the query on
an axis lies within `int(radius / GRID_SIZE) + 1` grid cells of the query's
cell on that axis. -/
theorem cell_coverage (x y radius : ℚ) (hbox : |x - y| ≤ radius) :
    ⌊y / GRID_SIZE⌋ - (⌊radius / GRID_SIZE⌋ + 1) ≤ ⌊x / GRID_SIZE⌋ ∧
    ⌊x / GRID_SIZE⌋ ≤ ⌊y / GRID_SIZE⌋ + (⌊radius / GRID_SIZE⌋ + 1) := by
  have hdiv : ∀ t : ℚ, t / GRID_SIZE = t * 100 := fun t => by
    rw [show GRID_SIZE = (1 : ℚ)/100 from rfl]
    norm_num [div_eq_mul_inv]
  obtain ⟨hlo, hhi⟩ := abs_le.mp hbox
  rw [hdiv, hdiv, hdiv]
  set z : ℤ := ⌊radius * 100⌋ + 1 with hz
  have hcz : radius * 100 < (z : ℚ) := by
    rw [hz]
    push_cast
    exact Int.lt_floor_add_one _
  constructor
  · have h1 : y * 100 - (z : ℚ) ≤ x * 100 := by linarith
    have h2 : ⌊y * 100 - (z : ℚ)⌋ ≤ ⌊x * 100⌋ := Int.floor_mono h1
    rw [Int.floor_sub_int] at h2
    omega
  · have h1 : x * 100 ≤ y * 100 + (z : ℚ) := by linarith
    have h2 : ⌊x * 100⌋ ≤ ⌊y * 100 + (z : ℚ)⌋ := Int.floor_mono h1
    rw [Int.floor_add_int] at h2
    omega

/-- The grid-block traversal gathers exactly (a permutation of) the naive
rectangular filter over the whole index. -/
theorem collect_from_grid_perm (entries : List Comp) (lat lng radius : ℚ) :
    (collect_from_grid entries lat lng radius).Perm
      (entries.filter (fun e =>
        decide (|e.lat - lat| ≤ radius) && decide (|e.lng - lng| ≤ radius))) := by
  simp only [collect_from_grid]
  refine (flatMap_cells_filter_perm compCell _ entries _ (cellBlock_nodup _ _ _)).trans ?_
  have hcong : ∀ e ∈ entries,
      ((cellBlock (⌊radius / GRID_SIZE⌋ + 1) ⌊lat / GRID_SIZE⌋
          ⌊lng / GRID_SIZE⌋).any (fun k => decide (compCell e = k)) &&
        (decide (|e.lat - lat| ≤ radius) && decide (|e.lng - lng| ≤ radius))) =
      (decide (|e.lat - lat| ≤ radius) && decide (|e.lng - lng| ≤ radius)) := by
    intro e _
    by_cases hb : |e.lat - lat| ≤ radius ∧ |e.lng - lng| ≤ radius
    · have hmem : compCell e ∈
          cellBlock (⌊radius / GRID_SIZE⌋ + 1) ⌊lat / GRID_SIZE⌋ ⌊lng / GRID_SIZE⌋ := by
        rw [mem_cellBlock]
        have c1 := cell_coverage e.lat lat radius hb.1
        have c2 := cell_coverage e.lng lng radius hb.2
        unfold compCell
        exact ⟨by simpa using c1.1, by simpa using c1.2, by simpa using c2.1,
          by simpa using c2.2⟩
      have hany : (cellBlock (⌊radius / GRID_SIZE⌋ + 1) ⌊lat / GRID_SIZE⌋
          ⌊lng / GRID_SIZE⌋).any (fun k => decide (compCell e = k)) = true := by
        rw [List.any_eq_true]
        exact ⟨compCell e, hmem, by simp⟩
      simp [hany, hb.1, hb.2]
    · have : ¬(|e.lat - lat| ≤ radius) ∨ ¬(|e.lng - lng| ≤ radius) := by tauto
      rcases this with h | h <;> simp [h]
  exact List.Perm.of_eq (List.filter_congr hcong)

/-- C5: for every query point, every grid index built over the comps, and
every radius in the configured radius ladders, the set of comps gathered by
the grid-cell traversal equals the set of all comps in the index satisfying
`|Δlat| ≤ radius` and `|Δlng| ≤ radius` (square bounding box): the cell span
always covers the radius, so the grid search is equivalent to a naive
rectangular filter over the whole index. -/
theorem collect_from_grid_equiv_naive (entries : List Comp) (lat lng radius : ℚ)
    (hlad : radius ∈ SEARCH_RADII_DEG ++ NEWCON_RADII) (e : Comp) :
    e ∈ collect_from_grid entries lat lng radius ↔
      e ∈ entries ∧ |e.lat - lat| ≤ radius ∧ |e.lng - lng| ≤ radius := by
  rw [(collect_from_grid_perm entries lat lng radius).mem_iff, List.mem_filter]
  simp [and_assoc]

/-- C5 witness: concrete instance — the radius `0.007` is in the ladder, a
comp `0.002°/0.003°` away from the query is gathered by the traversal, and a
comp `0.05°` away is not. -/
theorem collect_from_grid_equiv_naive_witness :
    ((7/1000 : ℚ) ∈ SEARCH_RADII_DEG ++ NEWCON_RADII) ∧
    (⟨2/1000, 3/1000, 800, 2000, 2024⟩ : Comp) ∈
      collect_from_grid [⟨2/1000, 3/1000, 800, 2000, 2024⟩,
        ⟨50/1000, 0, 900, 1500, 2019⟩] 0 0 (7/1000) ∧
    (⟨50/1000, 0, 900, 1500, 2019⟩ : Comp) ∉
      collect_from_grid [⟨2/1000, 3/1000, 800, 2000, 2024⟩,
        ⟨50/1000, 0, 900, 1500, 2019⟩] 0 0 (7/1000) := by
  have hm : (7/1000 : ℚ) ∈ SEARCH_RADII_DEG ++ NEWCON_RADII := by
    simp [SEARCH_RADII_DEG, NEWCON_RADII]
  refine ⟨hm, ?_, ?_⟩
  · exact (collect_from_grid_equiv_naive _ 0 0 _ hm _).mpr
      ⟨by simp, by rw [abs_le]; constructor <;> norm_num,
        by rw [abs_le]; constructor <;> norm_num⟩
  · intro hcontra
    have h := ((collect_from_grid_equiv_naive _ 0 0 _ hm _).mp hcontra).2.1
    have h2 := abs_le.mp h
    norm_num at h2

/-! ### `find_exit_ppsf` (`listings_build.py` 121-217) -/

/-- The exact rectangular bounding-box test applied to gathered candidates. -/
def in_box (lat lng radius : ℚ) (e : Comp) : Bool :=
  decide (|e.lat - lat| ≤ radius) && decide (|e.lng - lng| ≤ radius)

theorem collect_perm_box (entries : List Comp) (lat lng radius : ℚ) :
    (collect_from_grid entries lat lng radius).Perm
      (entries.filter (in_box lat lng radius)) :=
  collect_from_grid_perm entries lat lng radius

/-- `in_band` from `find_exit_ppsf`: `COMP_SQFT_MIN <= sqft <= COMP_SQFT_MAX`. -/
def in_band (sqft : ℚ) : Bool :=
  decide (COMP_SQFT_MIN ≤ sqft) && decide (sqft ≤ COMP_SQFT_MAX)

/-- `miles = round(radius * 69, 2)`. -/
def milesOf (radius : ℚ) : ℚ := roundTo2 (radius * 69)

/-- One radius iteration of a spatial scan: the single pass over the gathered
cell block builds `nearby_all` (all gathered ppsf values in the box) and
`nearby_band` (the in-size-band subset), in traversal order. -/
def radius_scan (entries : List Comp) (lat lng radius : ℚ) : List ℤ × List ℤ :=
  let gathered := collect_from_grid entries lat lng radius
  ((gathered.filter (fun e => in_band e.sqft)).map Comp.ppsf, gathered.map Comp.ppsf)

/-- The radius loop of one spatial phase of `find_exit_ppsf`, with the
post-loop widest-radius fallbacks (all-size `tag` result if `>= MIN_COMPS`,
else thin-band, else thin-all, else fall through to the next phase).
`acc` carries `(last_band, last_all, last_miles)`. -/
def spatial_phase_go (entries : List Comp) (lat lng : ℚ) (tag tagThin : String) :
    List ℚ → List ℤ × List ℤ × ℚ → Option (ℤ × ℕ × ℚ × String)
  | [], acc =>
    if MIN_COMPS ≤ acc.2.1.length then
      some (p75 acc.2.1, acc.2.1.length, acc.2.2, tag)
    else if 0 < acc.1.length then
      some (p75 acc.1, acc.1.length, acc.2.2, tagThin)
    else if 0 < acc.2.1.length then
      some (p75 acc.2.1, acc.2.1.length, acc.2.2, tagThin)
    else none
  | radius :: rest, _ =>
    if MIN_COMPS ≤ (radius_scan entries lat lng radius).1.length then
      some (p75 (radius_scan entries lat lng radius).1,
        (radius_scan entries lat lng radius).1.length, milesOf radius, tag)
    else spatial_phase_go entries lat lng tag tagThin rest
      ((radius_scan entries lat lng radius).1,
        (radius_scan entries lat lng radius).2, milesOf radius)

def spatial_phase (entries : List Comp) (lat lng : ℚ) (tag tagThin : String) :
    Option (ℤ × ℕ × ℚ × String) :=
  spatial_phase_go entries lat lng tag tagThin SEARCH_RADII_DEG ([], [], 0)

/-- `find_exit_ppsf(lat, lng, zone, zipcode)`: same-zone spatial phase (only
entered when the zone has a grid), all-zone spatial phase, then the
`zip+zone` (requires 3+ entries) and `zip` dict fallbacks, else
`(0, 0, 0, "none")`.  The grid dicts are modelled by the comp lists they
group; the zip dicts by functions returning `[]` on absent keys. -/
def find_exit_ppsf (zone_grid : String → List Comp) (all_grid : List Comp)
    (zip_zone_ppsfs : String × String → List ℤ) (zip_all_ppsfs : String → List ℤ)
    (lat lng : ℚ) (zone zipcode : String) : ℤ × ℕ × ℚ × String :=
  match (if zone_grid zone ≠ [] then
      spatial_phase (zone_grid zone) lat lng "zone" "zone-thin" else none) with
  | some r => r
  | none =>
    match spatial_phase all_grid lat lng "all" "all-thin" with
    | some r => r
    | none =>
      if 3 ≤ (zip_zone_ppsfs (zipcode, zone)).length then
        (p75 (zip_zone_ppsfs (zipcode, zone)),
          (zip_zone_ppsfs (zipcode, zone)).length, 0, "zip+zone")
      else if zip_all_ppsfs zipcode ≠ [] then
        (p75 (zip_all_ppsfs zipcode), (zip_all_ppsfs zipcode).length, 0, "zip")
      else (0, 0, 0, "none")

theorem p75_congr_perm {l₁ l₂ : List ℤ} (h : l₁.Perm l₂) : p75 l₁ = p75 l₂ := by
  unfold p75
  have hs : List.insertionSort (· ≤ ·) l₁ = List.insertionSort (· ≤ ·) l₂ :=
    List.eq_of_perm_of_sorted
      ((List.perm_insertionSort _ _).trans (h.trans (List.perm_insertionSort _ l₂).symm))
      (List.sorted_insertionSort _ _) (List.sorted_insertionSort _ _)
  rw [hs, h.length_eq]

theorem filter_box_mono (entries : List Comp) (lat lng : ℚ) {r1 r2 : ℚ} (h : r1 ≤ r2) :
    (entries.filter (in_box lat lng r1)).length ≤
      (entries.filter (in_box lat lng r2)).length := by
  rw [← List.countP_eq_length_filter, ← List.countP_eq_length_filter]
  refine List.countP_mono_left (fun e _ hbox => ?_)
  unfold in_box at hbox ⊢
  simp only [Bool.and_eq_true, decide_eq_true_eq] at hbox ⊢
  exact ⟨le_trans hbox.1 h, le_trans hbox.2 h⟩

theorem radius_scan_band_perm (entries : List Comp) (lat lng radius : ℚ) :
    (radius_scan entries lat lng radius).1.Perm
      (((entries.filter (in_box lat lng radius)).filter
        (fun e => in_band e.sqft)).map Comp.ppsf) :=
  List.Perm.map _ ((collect_perm_box entries lat lng radius).filter _)

theorem radius_scan_all_perm (entries : List Comp) (lat lng radius : ℚ) :
    (radius_scan entries lat lng radius).2.Perm
      ((entries.filter (in_box lat lng radius)).map Comp.ppsf) :=
  List.Perm.map _ (collect_perm_box entries lat lng radius)

/-- When the widest-radius box holds between one and four comps, the radius
loop never reaches the 5-comp threshold and ends in one of the two thin
branches, preferring the in-band subset when it is non-empty. -/
theorem spatial_phase_thin (entries : List Comp) (lat lng : ℚ) (tag tagThin : String)
    (h1 : 1 ≤ (entries.filter (in_box lat lng (15/1000))).length)
    (h2 : (entries.filter (in_box lat lng (15/1000))).length < MIN_COMPS) :
    spatial_phase entries lat lng tag tagThin =
      (if ((entries.filter (in_box lat lng (15/1000))).filter
            (fun e => in_band e.sqft)).length = 0
       then some (p75 ((entries.filter (in_box lat lng (15/1000))).map Comp.ppsf),
              (entries.filter (in_box lat lng (15/1000))).length,
              milesOf (15/1000), tagThin)
       else some (p75 (((entries.filter (in_box lat lng (15/1000))).filter
              (fun e => in_band e.sqft)).map Comp.ppsf),
              ((entries.filter (in_box lat lng (15/1000))).filter
                (fun e => in_band e.sqft)).length,
              milesOf (15/1000), tagThin)) := by
  have hmono := filter_box_mono entries lat lng (show (7:ℚ)/1000 ≤ 15/1000 by norm_num)
  have hs1b := radius_scan_band_perm entries lat lng (7/1000)
  have hs2b := radius_scan_band_perm entries lat lng (15/1000)
  have hs2a := radius_scan_all_perm entries lat lng (15/1000)
  have hlen1 : (radius_scan entries lat lng (7/1000)).1.length <
      (entries.filter (in_box lat lng (15/1000))).length + 1 := by
    rw [hs1b.length_eq, List.length_map]
    have := List.length_filter_le (fun e => in_band e.sqft)
      (entries.filter (in_box lat lng (7/1000)))
    omega
  have hlen2b : (radius_scan entries lat lng (15/1000)).1.length =
      ((entries.filter (in_box lat lng (15/1000))).filter
        (fun e => in_band e.sqft)).length := by
    rw [hs2b.length_eq, List.length_map]
  have hlen2a : (radius_scan entries lat lng (15/1000)).2.length =
      (entries.filter (in_box lat lng (15/1000))).length := by
    rw [hs2a.length_eq, List.length_map]
  have hbandle := List.length_filter_le (fun e => in_band e.sqft)
    (entries.filter (in_box lat lng (15/1000)))
  have hmc : MIN_COMPS = 5 := rfl
  unfold spatial_phase SEARCH_RADII_DEG
  rw [spatial_phase_go, if_neg (by omega), spatial_phase_go, if_neg (by omega),
    spatial_phase_go]
  dsimp only
  rw [if_neg (by omega)]
  by_cases hc : ((entries.filter (in_box lat lng (15/1000))).filter
      (fun e => in_band e.sqft)).length = 0
  · rw [if_pos hc]
    rw [if_neg (by omega), if_pos (by omega)]
    rw [p75_congr_perm hs2a, hlen2a]
  · rw [if_neg hc]
    rw [if_pos (by omega)]
    rw [p75_congr_perm hs2b, hlen2b]

/-- C6: if the same-zone spatial search never reaches the 5-comp threshold at
any radius, but at the widest radius (`0.015°`) at least 1 and fewer than 5
same-zone comps exist, `find_exit_ppsf` returns the P75 of that small comp
set (the in-size-band subset when non-empty, otherwise the all-size set)
together with its comp count and the `"zone-thin"` method tag, rather than a
null/none result. -/
theorem find_exit_ppsf_zone_thin (zone_grid : String → List Comp)
    (all_grid : List Comp) (zip_zone_ppsfs : String × String → List ℤ)
    (zip_all_ppsfs : String → List ℤ) (lat lng : ℚ) (zone zipcode : String)
    (h1 : 1 ≤ ((zone_grid zone).filter (in_box lat lng (15/1000))).length)
    (h2 : ((zone_grid zone).filter (in_box lat lng (15/1000))).length < MIN_COMPS) :
    find_exit_ppsf zone_grid all_grid zip_zone_ppsfs zip_all_ppsfs lat lng zone zipcode =
      (if (((zone_grid zone).filter (in_box lat lng (15/1000))).filter
            (fun e => in_band e.sqft)).length = 0
       then (p75 (((zone_grid zone).filter (in_box lat lng (15/1000))).map Comp.ppsf),
             ((zone_grid zone).filter (in_box lat lng (15/1000))).length,
             milesOf (15/1000), "zone-thin")
       else (p75 ((((zone_grid zone).filter (in_box lat lng (15/1000))).filter
              (fun e => in_band e.sqft)).map Comp.ppsf),
             (((zone_grid zone).filter (in_box lat lng (15/1000))).filter
              (fun e => in_band e.sqft)).length,
             milesOf (15/1000), "zone-thin")) := by
  have hzg : zone_grid zone ≠ [] := by
    have hne : (zone_grid zone).filter (in_box lat lng (15/1000)) ≠ [] :=
      List.length_pos.mp h1
    obtain ⟨e, he⟩ := List.exists_mem_of_ne_nil _ hne
    exact List.ne_nil_of_mem (List.mem_of_mem_filter he)
  have hsp := spatial_phase_thin (zone_grid zone) lat lng "zone" "zone-thin" h1 h2
  unfold find_exit_ppsf
  rw [if_pos hzg, hsp]
  by_cases hc : (((zone_grid zone).filter (in_box lat lng (15/1000))).filter
      (fun e => in_band e.sqft)).length = 0
  · rw [if_pos hc, if_pos hc]
  · rw [if_neg hc, if_neg hc]

/-- C6 witness: with exactly 2 same-zone comps in the widest-radius box and a
zone grid holding only those comps, the estimator returns their P75 (`700`),
count 2 and tag `"zone-thin"`. -/
theorem find_exit_ppsf_zone_thin_witness :
    1 ≤ (List.filter (in_box 0 0 (15/1000))
        [(⟨1/1000, 1/1000, 600, 2000, 2015⟩ : Comp), ⟨2/1000, 0, 700, 1400, 2010⟩]).length ∧
    (List.filter (in_box 0 0 (15/1000))
        [(⟨1/1000, 1/1000, 600, 2000, 2015⟩ : Comp), ⟨2/1000, 0, 700, 1400, 2010⟩]).length <
      MIN_COMPS ∧
    find_exit_ppsf
      (fun z => if z = "R1" then
        [(⟨1/1000, 1/1000, 600, 2000, 2015⟩ : Comp), ⟨2/1000, 0, 700, 1400, 2010⟩]
        else [])
      [⟨1/1000, 1/1000, 600, 2000, 2015⟩, ⟨2/1000, 0, 700, 1400, 2010⟩]
      (fun _ => []) (fun _ => []) 0 0 "R1" "90001" =
      (700, 2, milesOf (15/1000), "zone-thin") := by
  have hfil : List.filter (in_box 0 0 (15/1000))
      [(⟨1/1000, 1/1000, 600, 2000, 2015⟩ : Comp), ⟨2/1000, 0, 700, 1400, 2010⟩] =
      [⟨1/1000, 1/1000, 600, 2000, 2015⟩, ⟨2/1000, 0, 700, 1400, 2010⟩] := by
    norm_num [in_box, List.filter, abs_le]
  have hband : List.filter (fun e => in_band e.sqft)
      [(⟨1/1000, 1/1000, 600, 2000, 2015⟩ : Comp), ⟨2/1000, 0, 700, 1400, 2010⟩] =
      [⟨1/1000, 1/1000, 600, 2000, 2015⟩, ⟨2/1000, 0, 700, 1400, 2010⟩] := by
    norm_num [in_band, List.filter, COMP_SQFT_MIN, COMP_SQFT_MAX]
  have h1 : 1 ≤ (List.filter (in_box 0 0 (15/1000))
      [(⟨1/1000, 1/1000, 600, 2000, 2015⟩ : Comp), ⟨2/1000, 0, 700, 1400, 2010⟩]).length := by
    rw [hfil]
    norm_num
  have h2 : (List.filter (in_box 0 0 (15/1000))
      [(⟨1/1000, 1/1000, 600, 2000, 2015⟩ : Comp), ⟨2/1000, 0, 700, 1400, 2010⟩]).length <
      MIN_COMPS := by
    rw [hfil]
    norm_num [MIN_COMPS]
  refine ⟨h1, h2, ?_⟩
  rw [find_exit_ppsf_zone_thin
    (fun z => if z = "R1" then
      [(⟨1/1000, 1/1000, 600, 2000, 2015⟩ : Comp), ⟨2/1000, 0, 700, 1400, 2010⟩]
      else [])
    [⟨1/1000, 1/1000, 600, 2000, 2015⟩, ⟨2/1000, 0, 700, 1400, 2010⟩]
    (fun _ => []) (fun _ => []) 0 0 "R1" "90001" h1 h2]
  have hif : (if ("R1" : String) = "R1" then
      [(⟨1/1000, 1/1000, 600, 2000, 2015⟩ : Comp), ⟨2/1000, 0, 700, 1400, 2010⟩]
      else []) =
      [(⟨1/1000, 1/1000, 600, 2000, 2015⟩ : Comp), ⟨2/1000, 0, 700, 1400, 2010⟩] :=
    if_pos rfl
  rw [hif, hfil, hband]
  norm_num [p75, List.insertionSort, List.orderedInsert]

/-! ### `find_newcon_ppsf` (`listings_build.py` 220-340) -/

/-- `ADJACENT_ZONES` dict (`listings_build.py` 220-226); absent key = `[]`
(`ADJACENT_ZONES.get(zone, [])`). -/
def ADJACENT_ZONES (z : String) : List String :=
  if z = "R1" then ["R2"]
  else if z = "R2" then ["R1", "R3"]
  else if z = "R3" then ["R2", "R4"]
  else if z = "R4" then ["R3"]
  else if z = "LAND" then ["R1"]
  else []

/-- Return tuple of `find_newcon_ppsf`:
`(ppsf, count, tier_label, zone_matched, flag)`. -/
structure NCResult where
  val : Option ℤ
  count : ℕ
  tier : Option String
  zone_matched : Option Bool
  flag : Option String
deriving DecidableEq, Repr

/-- `try_tiers` (`listings_build.py` 265-287): tier 1 comps built 2024+,
tier 2 built 2023+, tier 3 built 2021-22 with a `round(cppsf * 0.90)`
haircut appended to the tier-2 list; returns
`(adjusted ppsf list, tier label, has_stale)`. -/
def try_tiers (raw : List Comp) : List ℤ × Option String × Bool :=
  let t1 := (raw.filter (fun e => decide (2024 ≤ e.yb) && in_band e.sqft)).map Comp.ppsf
  if MIN_COMPS ≤ t1.length then (t1, some "2024-25", false)
  else
    let t2 := (raw.filter (fun e => decide (2023 ≤ e.yb) && in_band e.sqft)).map Comp.ppsf
    if MIN_COMPS ≤ t2.length then (t2, some "2023+", false)
    else
      let t3_adj := (raw.filter (fun e =>
          decide (2021 ≤ e.yb) && decide (e.yb ≤ 2022) && in_band e.sqft)).map
        (fun e => pyroundQ ((e.ppsf : ℚ) * (90/100)))
      if NEWCON_MIN ≤ (t2 ++ t3_adj).length then
        (t2 ++ t3_adj,
          some (if !t3_adj.isEmpty then "2021-22 adj" else "2023+"), !t3_adj.isEmpty)
      else (t2 ++ t3_adj, none, !t3_adj.isEmpty)

/-- The sanity-check-and-return block of `find_newcon_ppsf`, duplicated in
the source at lines 300-306 (same-zone, `zm = True`) and 331-337
(cross-zone, `zm = False`): when the general estimate is positive, a
candidate below 75% of it is returned as a null value flagged
`"sanity-low"`; one above 150% keeps its value but is flagged
`"sanity-high"`. -/
def apply_sanity (exit_psf val : ℤ) (count : ℕ) (tier : String) (zm : Bool)
    (flag : Option String) : NCResult :=
  if 0 < exit_psf then
    if (val : ℚ) < (exit_psf : ℚ) * (75/100) then
      ⟨none, count, some tier, some zm, some "sanity-low"⟩
    else if (exit_psf : ℚ) * (150/100) < (val : ℚ) then
      ⟨some val, count, some tier, some zm, some "sanity-high"⟩
    else ⟨some val, count, some tier, some zm, flag⟩
  else ⟨some val, count, some tier, some zm, flag⟩

/-- One radius iteration of Phase 1 (same-zone search,
`listings_build.py` 289-307): `raw = collect_from_grid(zg, radius) if zg
else []`; skip when empty; accept when a tier label was produced and the
tier list reaches `MIN_COMPS` (5), with flag `"thin"` below 7 comps, else
`"stale"` when 2021-22 comps contributed, then the sanity check. -/
def newcon_phase1_step (zg : List Comp) (lat lng : ℚ) (exit_psf : ℤ)
    (radius : ℚ) : Option NCResult :=
  if (if zg ≠ [] then collect_from_grid zg lat lng radius else []) = [] then none
  else
    match try_tiers (if zg ≠ [] then collect_from_grid zg lat lng radius else []) with
    | (pl, some tier, hs) =>
      if MIN_COMPS ≤ pl.length then
        some (apply_sanity exit_psf (p75 pl) pl.length tier true
          (if pl.length < MIN_COMPS + 2 then some "thin"
           else if hs then some "stale" else none))
      else none
    | (_, none, _) => none

/-- One radius iteration of Phase 2 (cross-zone search,
`listings_build.py` 309-337): adjacent-zone comps plus the same-zone comps,
accepted at the lower `NEWCON_MIN` (3); the flag assignments at lines
326-330 all set `"cross-zone"` (`has_stale` and the thin count are
overridden), then the sanity check with `zone_matched = False`. -/
def newcon_phase2_step (nzg : String → List Comp) (zone : String) (lat lng : ℚ)
    (exit_psf : ℤ) (radius : ℚ) : Option NCResult :=
  if ((if nzg zone ≠ [] then collect_from_grid (nzg zone) lat lng radius else []) ++
      (ADJACENT_ZONES zone).flatMap (fun az =>
        if nzg az ≠ [] then collect_from_grid (nzg az) lat lng radius else [])) = []
  then none
  else
    match try_tiers ((if nzg zone ≠ [] then
        collect_from_grid (nzg zone) lat lng radius else []) ++
      (ADJACENT_ZONES zone).flatMap (fun az =>
        if nzg az ≠ [] then collect_from_grid (nzg az) lat lng radius else [])) with
    | (pl, some tier, hs) =>
      if NEWCON_MIN ≤ pl.length then
        some (apply_sanity exit_psf (p75 pl) pl.length tier false
          (if pl.length < MIN_COMPS + 2 then some "cross-zone"
           else if hs then some "cross-zone" else some "cross-zone"))
      else none
    | (_, none, _) => none

def newcon_phase1 (zg : List Comp) (lat lng : ℚ) (exit_psf : ℤ) :
    List ℚ → Option NCResult
  | [] => none
  | radius :: rest =>
    match newcon_phase1_step zg lat lng exit_psf radius with
    | some r => some r
    | none => newcon_phase1 zg lat lng exit_psf rest

def newcon_phase2 (nzg : String → List Comp) (zone : String) (lat lng : ℚ)
    (exit_psf : ℤ) : List ℚ → Option NCResult
  | [] => none
  | radius :: rest =>
    match newcon_phase2_step nzg zone lat lng exit_psf radius with
    | some r => some r
    | none => newcon_phase2 nzg zone lat lng exit_psf rest

/-- `find_newcon_ppsf(lat, lng, zone, exit_psf)`: Phase 1 (same-zone) over
the radius ladder, then Phase 2 (adjacent zones + same zone), else
`(None, 0, None, None, None)`. -/
def find_newcon_ppsf (nzg : String → List Comp) (lat lng : ℚ) (zone : String)
    (exit_psf : ℤ) : NCResult :=
  match newcon_phase1 (nzg zone) lat lng exit_psf NEWCON_RADII with
  | some r => r
  | none =>
    match newcon_phase2 nzg zone lat lng exit_psf NEWCON_RADII with
    | some r => r
    | none => ⟨none, 0, none, none, none⟩

theorem apply_sanity_fields (e v : ℤ) (c : ℕ) (t : String) (z : Bool)
    (f : Option String) :
    (apply_sanity e v c t z f).count = c ∧
    (apply_sanity e v c t z f).zone_matched = some z ∧
    (apply_sanity e v c t z f).tier = some t := by
  unfold apply_sanity
  split_ifs <;> exact ⟨rfl, rfl, rfl⟩

theorem apply_sanity_flag_cases (e v : ℤ) (c : ℕ) (t : String) (z : Bool)
    (f : Option String) :
    (apply_sanity e v c t z f).flag = f ∨
    (apply_sanity e v c t z f).flag = some "sanity-low" ∨
    (apply_sanity e v c t z f).flag = some "sanity-high" := by
  unfold apply_sanity
  split_ifs <;> simp

theorem apply_sanity_val_some {e v : ℤ} {c : ℕ} {t : String} {z : Bool}
    {f : Option String} {w : ℤ}
    (h : (apply_sanity e v c t z f).val = some w) :
    w = v ∧ (0 < e → ¬((v : ℚ) < (e : ℚ) * (75/100))) := by
  by_cases h1 : 0 < e
  · by_cases h2 : (v : ℚ) < (e : ℚ) * (75/100)
    · have hres : apply_sanity e v c t z f =
          ⟨none, c, some t, some z, some "sanity-low"⟩ := by
        unfold apply_sanity
        rw [if_pos h1, if_pos h2]
      rw [hres] at h
      simp at h
    · by_cases h3 : (e : ℚ) * (150/100) < (v : ℚ)
      · have hres : apply_sanity e v c t z f =
            ⟨some v, c, some t, some z, some "sanity-high"⟩ := by
          unfold apply_sanity
          rw [if_pos h1, if_neg h2, if_pos h3]
        rw [hres] at h
        have hv : some v = some w := h
        exact ⟨(Option.some.inj hv).symm, fun _ => h2⟩
      · have hres : apply_sanity e v c t z f = ⟨some v, c, some t, some z, f⟩ := by
          unfold apply_sanity
          rw [if_pos h1, if_neg h2, if_neg h3]
        rw [hres] at h
        have hv : some v = some w := h
        exact ⟨(Option.some.inj hv).symm, fun _ => h2⟩
  · have hres : apply_sanity e v c t z f = ⟨some v, c, some t, some z, f⟩ := by
      unfold apply_sanity
      rw [if_neg h1]
    rw [hres] at h
    have hv : some v = some w := h
    exact ⟨(Option.some.inj hv).symm, fun hp => absurd hp h1⟩

theorem apply_sanity_flag_low {e v : ℤ} {c : ℕ} {t : String} {z : Bool}
    {f : Option String} (hf : f ≠ some "sanity-low")
    (h : (apply_sanity e v c t z f).flag = some "sanity-low") :
    (apply_sanity e v c t z f).val = none := by
  unfold apply_sanity at h ⊢
  split_ifs at h ⊢
  · rfl
  · simp at h
  · exact absurd h hf
  · exact absurd h hf

theorem newcon_phase1_step_shape {zg : List Comp} {lat lng : ℚ} {exit_psf : ℤ}
    {radius : ℚ} {r : NCResult}
    (h : newcon_phase1_step zg lat lng exit_psf radius = some r) :
    ∃ val count tier flag, MIN_COMPS ≤ count ∧
      (flag = some "thin" ∨ flag = some "stale" ∨ flag = (none : Option String)) ∧
      r = apply_sanity exit_psf val count tier true flag := by
  unfold newcon_phase1_step at h
  generalize (if zg ≠ [] then collect_from_grid zg lat lng radius else []) = raw at h
  split at h
  · exact absurd h (by simp)
  · split at h
    · rename_i pl tier hs heq
      split at h
      · rename_i hlen
        injection h with h2
        refine ⟨p75 pl, pl.length, tier, _, hlen, ?_, h2.symm⟩
        split_ifs <;> tauto
      · exact absurd h (by simp)
    · exact absurd h (by simp)

theorem newcon_phase2_step_shape {nzg : String → List Comp} {zone : String}
    {lat lng : ℚ} {exit_psf : ℤ} {radius : ℚ} {r : NCResult}
    (h : newcon_phase2_step nzg zone lat lng exit_psf radius = some r) :
    ∃ val count tier, NEWCON_MIN ≤ count ∧
      r = apply_sanity exit_psf val count tier false (some "cross-zone") := by
  unfold newcon_phase2_step at h
  generalize ((if nzg zone ≠ [] then collect_from_grid (nzg zone) lat lng radius else []) ++
      (ADJACENT_ZONES zone).flatMap (fun az =>
        if nzg az ≠ [] then collect_from_grid (nzg az) lat lng radius else [])) = raw at h
  split at h
  · exact absurd h (by simp)
  · split at h
    · rename_i pl tier hs heq
      split at h
      · rename_i hlen
        have hflag : (if pl.length < MIN_COMPS + 2 then some "cross-zone"
            else if hs then some "cross-zone" else some "cross-zone") =
            (some "cross-zone" : Option String) := by
          split_ifs <;> rfl
        rw [hflag] at h
        injection h with h2
        exact ⟨p75 pl, pl.length, tier, hlen, h2.symm⟩
      · exact absurd h (by simp)
    · exact absurd h (by simp)

theorem newcon_phase1_shape {zg : List Comp} {lat lng : ℚ} {exit_psf : ℤ}
    {radii : List ℚ} {r : NCResult}
    (h : newcon_phase1 zg lat lng exit_psf radii = some r) :
    ∃ val count tier flag, MIN_COMPS ≤ count ∧
      (flag = some "thin" ∨ flag = some "stale" ∨ flag = (none : Option String)) ∧
      r = apply_sanity exit_psf val count tier true flag := by
  induction radii with
  | nil => simp [newcon_phase1] at h
  | cons a rest ih =>
    rw [newcon_phase1] at h
    split at h
    · rename_i r' heq
      injection h with h2
      exact h2 ▸ newcon_phase1_step_shape heq
    · exact ih h

theorem newcon_phase2_shape {nzg : String → List Comp} {zone : String}
    {lat lng : ℚ} {exit_psf : ℤ} {radii : List ℚ} {r : NCResult}
    (h : newcon_phase2 nzg zone lat lng exit_psf radii = some r) :
    ∃ val count tier, NEWCON_MIN ≤ count ∧
      r = apply_sanity exit_psf val count tier false (some "cross-zone") := by
  induction radii with
  | nil => simp [newcon_phase2] at h
  | cons a rest ih =>
    rw [newcon_phase2] at h
    split at h
    · rename_i r' heq
      injection h with h2
      exact h2 ▸ newcon_phase2_step_shape heq
    · exact ih h

/-- C3: whenever the new-construction estimator computes a candidate value
and the general exit estimate `exit_psf` is positive, the sanity stage
(`apply_sanity`, through which both phases return) nulls a candidate below
75% of the general estimate with flag `"sanity-low"`, and keeps (does not
null) a candidate above 150% with flag `"sanity-high"`; consequently
`find_newcon_ppsf` never returns a value below 75% of a positive general
estimate, and a `"sanity-low"`-flagged result always carries a null value. -/
theorem newcon_sanity_bounds (exit_psf val : ℤ) (count : ℕ) (tier : String)
    (zm : Bool) (flag : Option String) (hpos : 0 < exit_psf) :
    ((val : ℚ) < (exit_psf : ℚ) * (75/100) →
      apply_sanity exit_psf val count tier zm flag =
        ⟨none, count, some tier, some zm, some "sanity-low"⟩) ∧
    ((exit_psf : ℚ) * (150/100) < (val : ℚ) →
      apply_sanity exit_psf val count tier zm flag =
        ⟨some val, count, some tier, some zm, some "sanity-high"⟩) ∧
    (∀ (nzg : String → List Comp) (lat lng : ℚ) (zone : String) (v : ℤ),
      (find_newcon_ppsf nzg lat lng zone exit_psf).val = some v →
        (exit_psf : ℚ) * (75/100) ≤ (v : ℚ)) ∧
    (∀ (nzg : String → List Comp) (lat lng : ℚ) (zone : String),
      (find_newcon_ppsf nzg lat lng zone exit_psf).flag = some "sanity-low" →
        (find_newcon_ppsf nzg lat lng zone exit_psf).val = none) := by
  refine ⟨?_, ?_, ?_, ?_⟩
  · intro hlow
    unfold apply_sanity
    rw [if_pos hpos, if_pos hlow]
  · intro hhigh
    have hepos : (0 : ℚ) < (exit_psf : ℚ) := by exact_mod_cast hpos
    have hnl : ¬((val : ℚ) < (exit_psf : ℚ) * (75/100)) := by
      push_neg
      linarith
    unfold apply_sanity
    rw [if_pos hpos, if_neg hnl, if_pos hhigh]
  · intro nzg lat lng zone v hval
    rcases hp1 : newcon_phase1 (nzg zone) lat lng exit_psf NEWCON_RADII with _ | r1
    · rcases hp2 : newcon_phase2 nzg zone lat lng exit_psf NEWCON_RADII with _ | r2
      · unfold find_newcon_ppsf at hval
        rw [hp1, hp2] at hval
        simp at hval
      · unfold find_newcon_ppsf at hval
        rw [hp1, hp2] at hval
        obtain ⟨w, c, t, _, rfl⟩ := newcon_phase2_shape hp2
        obtain ⟨hwv, hbound⟩ := apply_sanity_val_some hval
        have := hbound hpos
        rw [hwv]
        linarith [not_lt.mp this]
    · unfold find_newcon_ppsf at hval
      rw [hp1] at hval
      obtain ⟨w, c, t, fl, _, _, rfl⟩ := newcon_phase1_shape hp1
      obtain ⟨hwv, hbound⟩ := apply_sanity_val_some hval
      have := hbound hpos
      rw [hwv]
      linarith [not_lt.mp this]
  · intro nzg lat lng zone hflag
    rcases hp1 : newcon_phase1 (nzg zone) lat lng exit_psf NEWCON_RADII with _ | r1
    · rcases hp2 : newcon_phase2 nzg zone lat lng exit_psf NEWCON_RADII with _ | r2
      · unfold find_newcon_ppsf at hflag
        rw [hp1, hp2] at hflag
        simp at hflag
      · unfold find_newcon_ppsf at hflag ⊢
        rw [hp1, hp2] at hflag ⊢
        obtain ⟨w, c, t, _, rfl⟩ := newcon_phase2_shape hp2
        exact apply_sanity_flag_low (by decide) hflag
    · unfold find_newcon_ppsf at hflag ⊢
      rw [hp1] at hflag ⊢
      obtain ⟨w, c, t, fl, _, hfl, rfl⟩ := newcon_phase1_shape hp1
      rcases hfl with rfl | rfl | rfl
      · exact apply_sanity_flag_low (by decide) hflag
      · exact apply_sanity_flag_low (by decide) hflag
      · exact apply_sanity_flag_low (by simp) hflag

/-- C3 witness: with a general estimate of 500, a candidate of 350 (70%) is
nulled with flag `"sanity-low"`, while a candidate of 800 (160%) keeps its
value and is flagged `"sanity-high"`. -/
theorem newcon_sanity_bounds_witness :
    (0 < (500 : ℤ)) ∧
    apply_sanity 500 350 5 "2024-25" true none =
      ⟨none, 5, some "2024-25", some true, some "sanity-low"⟩ ∧
    apply_sanity 500 800 5 "2024-25" true none =
      ⟨some 800, 5, some "2024-25", some true, some "sanity-high"⟩ := by
  refine ⟨by norm_num, ?_, ?_⟩
  · exact (newcon_sanity_bounds 500 350 5 "2024-25" true none (by norm_num)).1
      (by norm_num)
  · exact (newcon_sanity_bounds 500 800 5 "2024-25" true none (by norm_num)).2.1
      (by norm_num)

/-- Three same-zone new-construction comps (built 2024, in the size band,
at the query location); no comps exist in any other zone. -/
def ncExample : List Comp :=
  [⟨0, 0, 500, 2000, 2024⟩, ⟨0, 0, 510, 2000, 2024⟩, ⟨0, 0, 520, 2000, 2024⟩]

/-- New-construction grid with comps only in zone `"R1"`. -/
def ncGridEx : String → List Comp := fun z => if z = "R1" then ncExample else []

theorem ncExample_collect : ∀ radius ∈ NEWCON_RADII,
    collect_from_grid ncExample 0 0 radius = ncExample := by
  intro radius hr
  have hcases : radius = 7/1000 ∨ radius = 15/1000 ∨ radius = 22/1000 ∨
      radius = 29/1000 := by
    simpa [NEWCON_RADII] using hr
  rcases hcases with rfl | rfl | rfl | rfl <;>
    norm_num [collect_from_grid, cellBlock, intRange, compCell, GRID_SIZE, ncExample,
      List.range, List.range.loop, List.filter, List.flatMap]

theorem ncExample_try_tiers :
    try_tiers ncExample = ([500, 510, 520], some "2023+", false) := by
  norm_num [try_tiers, ncExample, in_band, COMP_SQFT_MIN, COMP_SQFT_MAX,
    List.filter, MIN_COMPS, NEWCON_MIN]

theorem ncExample_phase1_step : ∀ radius ∈ NEWCON_RADII,
    newcon_phase1_step ncExample 0 0 0 radius = none := by
  intro radius hr
  unfold newcon_phase1_step
  rw [if_pos (show ncExample ≠ [] by simp [ncExample]), ncExample_collect radius hr,
    if_neg (show ¬(ncExample = []) by simp [ncExample]), ncExample_try_tiers]
  dsimp only
  rw [if_neg (by norm_num [MIN_COMPS])]

theorem ncExample_phase1 : newcon_phase1 ncExample 0 0 0 NEWCON_RADII = none := by
  have h7 := ncExample_phase1_step (7/1000) (by norm_num [NEWCON_RADII])
  have h15 := ncExample_phase1_step (15/1000) (by norm_num [NEWCON_RADII])
  have h22 := ncExample_phase1_step (22/1000) (by norm_num [NEWCON_RADII])
  have h29 := ncExample_phase1_step (29/1000) (by norm_num [NEWCON_RADII])
  rw [show NEWCON_RADII = [7/1000, 15/1000, 22/1000, 29/1000] from rfl]
  rw [newcon_phase1, h7]
  dsimp only
  rw [newcon_phase1, h15]
  dsimp only
  rw [newcon_phase1, h22]
  dsimp only
  rw [newcon_phase1, h29]
  rfl

theorem ncExample_phase2_step :
    newcon_phase2_step ncGridEx "R1" 0 0 0 (7/1000) =
      some ⟨some 520, 3, some "2023+", some false, some "cross-zone"⟩ := by
  have h7 : (7:ℚ)/1000 ∈ NEWCON_RADII := by norm_num [NEWCON_RADII]
  unfold newcon_phase2_step
  have hz : ncGridEx "R1" = ncExample := rfl
  have hz2 : ncGridEx "R2" = [] := rfl
  have hadj : ADJACENT_ZONES "R1" = ["R2"] := rfl
  rw [hadj, hz]
  have hcross : List.flatMap ["R2"] (fun az =>
      if ncGridEx az ≠ [] then collect_from_grid (ncGridEx az) 0 0 (7/1000) else []) =
      [] := by
    simp [ncGridEx, ncExample]
  rw [hcross, if_pos (show ncExample ≠ [] by simp [ncExample]),
    ncExample_collect _ h7, List.append_nil,
    if_neg (show ¬(ncExample = []) by simp [ncExample]), ncExample_try_tiers]
  dsimp only
  rw [if_pos (by norm_num [NEWCON_MIN]),
    if_pos (by norm_num [MIN_COMPS])]
  have hp75 : p75 [500, 510, 520] = 520 := by decide
  rw [hp75]
  unfold apply_sanity
  rw [if_neg (by norm_num)]
  rfl

theorem ncExample_newcon_eval :
    find_newcon_ppsf ncGridEx 0 0 "R1" 0 =
      ⟨some 520, 3, some "2023+", some false, some "cross-zone"⟩ := by
  unfold find_newcon_ppsf
  rw [show ncGridEx "R1" = ncExample from rfl, ncExample_phase1]
  dsimp only
  rw [show NEWCON_RADII = [7/1000, 15/1000, 22/1000, 29/1000] from rfl,
    newcon_phase2, ncExample_phase2_step]

/-- C2 counterexample: with three qualifying comps in the listing's own zone
and no comps at all in any adjacent zone, the estimator accepts the result
in the cross-zone phase under the lower 3-comp minimum and reports
`zone_matched = False` with flag `"cross-zone"` — although no adjacent-zone
comp contributed — refuting the claim that a result computed solely from
own-zone comps is reported zone-matched. -/
theorem find_newcon_ppsf_cross_zone_counterexample :
    (∀ az ∈ ADJACENT_ZONES "R1", ncGridEx az = []) ∧
    find_newcon_ppsf ncGridEx 0 0 "R1" 0 =
      ⟨some 520, 3, some "2023+", some false, some "cross-zone"⟩ := by
  constructor
  · intro az haz
    have : az = "R2" := by simpa [ADJACENT_ZONES] using haz
    subst this
    rfl
  · exact ncExample_newcon_eval

/-- C2 amended: `zone_matched = True` results come only from the same-zone
phase and therefore always carry at least `MIN_COMPS` (5) comps; every
result accepted at the lower 3-comp absolute minimum comes from the
cross-zone phase, which always reports `zone_matched = False` with flag
`"cross-zone"` (or a sanity flag) — even when, as in the counterexample,
only own-zone comps contributed to the value. -/
theorem find_newcon_ppsf_zone_matched_characterization
    (nzg : String → List Comp) (lat lng : ℚ) (zone : String) (exit_psf : ℤ) :
    ((find_newcon_ppsf nzg lat lng zone exit_psf).zone_matched = some true →
      MIN_COMPS ≤ (find_newcon_ppsf nzg lat lng zone exit_psf).count) ∧
    ((find_newcon_ppsf nzg lat lng zone exit_psf).zone_matched = some false →
      ((find_newcon_ppsf nzg lat lng zone exit_psf).flag = some "cross-zone" ∨
       (find_newcon_ppsf nzg lat lng zone exit_psf).flag = some "sanity-low" ∨
       (find_newcon_ppsf nzg lat lng zone exit_psf).flag = some "sanity-high")) := by
  rcases hp1 : newcon_phase1 (nzg zone) lat lng exit_psf NEWCON_RADII with _ | r1
  · rcases hp2 : newcon_phase2 nzg zone lat lng exit_psf NEWCON_RADII with _ | r2
    · constructor <;> intro hzm <;>
        (unfold find_newcon_ppsf at hzm; rw [hp1, hp2] at hzm; simp at hzm)
    · obtain ⟨w, c, t, hc, rfl⟩ := newcon_phase2_shape hp2
      have hres : find_newcon_ppsf nzg lat lng zone exit_psf =
          apply_sanity exit_psf w c t false (some "cross-zone") := by
        unfold find_newcon_ppsf
        rw [hp1, hp2]
      rw [hres]
      obtain ⟨_, hzm, _⟩ := apply_sanity_fields exit_psf w c t false (some "cross-zone")
      constructor
      · intro habs
        rw [hzm] at habs
        simp at habs
      · intro _
        rcases apply_sanity_flag_cases exit_psf w c t false (some "cross-zone") with
          h | h | h <;> tauto
  · obtain ⟨w, c, t, fl, hc, hfl, rfl⟩ := newcon_phase1_shape hp1
    have hres : find_newcon_ppsf nzg lat lng zone exit_psf =
        apply_sanity exit_psf w c t true fl := by
      unfold find_newcon_ppsf
      rw [hp1]
    rw [hres]
    obtain ⟨hcnt, hzm, _⟩ := apply_sanity_fields exit_psf w c t true fl
    constructor
    · intro _
      rw [hcnt]
      exact hc
    · intro habs
      rw [hzm] at habs
      simp at habs

/-- C2 witness: applying the characterization at the counterexample input
(where `zone_matched = some false`) yields the cross-zone/sanity flag
disjunction. -/
theorem find_newcon_ppsf_zone_matched_characterization_witness :
    (find_newcon_ppsf ncGridEx 0 0 "R1" 0).zone_matched = some false ∧
    ((find_newcon_ppsf ncGridEx 0 0 "R1" 0).flag = some "cross-zone" ∨
     (find_newcon_ppsf ncGridEx 0 0 "R1" 0).flag = some "sanity-low" ∨
     (find_newcon_ppsf ncGridEx 0 0 "R1" 0).flag = some "sanity-high") := by
  have hzm : (find_newcon_ppsf ncGridEx 0 0 "R1" 0).zone_matched = some false := by
    rw [ncExample_newcon_eval]
  exact ⟨hzm,
    (find_newcon_ppsf_zone_matched_characterization ncGridEx 0 0 "R1" 0).2 hzm⟩

/-! ### `build_subdiv_comps.py` Step 2 — cluster detection (lines 156-195) -/

def CLUSTER_PROXIMITY_DEG : ℚ := 3/1000
def CLUSTER_MAX_MONTHS : ℕ := 18

/-- A subdivision candidate as used by the clustering pass: location plus the
sold date as a day number (`(c["sold_date"] - d["sold_date"]).days` is the
difference of day numbers). -/
structure SubCand where
  lat : ℚ
  lng : ℚ
  sold : ℤ
deriving DecidableEq, Repr

/-- The proximity check of lines 183-184. -/
def cluster_proximity (c d : SubCand) : Bool :=
  decide (|c.lat - d.lat| ≤ CLUSTER_PROXIMITY_DEG) &&
  decide (|c.lng - d.lng| ≤ CLUSTER_PROXIMITY_DEG)

/-- The time-window check of lines 186-192.  The loop iterates over the
current cluster members binding `m = candidates[m_idx]`, but the body
computes `days_apart = abs((c["sold_date"] - d["sold_date"]).days)` — the
seed `c` against the candidate `d`, never `m` — so the predicate ignores the
member and `in_window` holds iff the member list is non-empty and the
candidate is within `CLUSTER_MAX_MONTHS * 30` days of the seed. -/
def in_window (c d : SubCand) (members : List ℕ) : Bool :=
  members.any (fun _ => decide ((c.sold - d.sold).natAbs ≤ CLUSTER_MAX_MONTHS * 30))

/-- The inner forward scan of lines 177-195 over the remaining indices,
threading the per-candidate `cluster_id` assignments and `cluster_members`. -/
def inner_scan (cands : List SubCand) (c : SubCand) (cid : ℕ) :
    List ℕ → List (Option ℕ) → List ℕ → List (Option ℕ) × List ℕ
  | [], assign, members => (assign, members)
  | j :: js, assign, members =>
    match cands[j]? with
    | none => inner_scan cands c cid js assign members
    | some d =>
      if (assign.getD j none).isSome then inner_scan cands c cid js assign members
      else if cluster_proximity c d && in_window c d members then
        inner_scan cands c cid js (assign.set j (some cid)) (members ++ [j])
      else inner_scan cands c cid js assign members

/-- Python `range(a, n)`. -/
def idxFrom (a n : ℕ) : List ℕ := (List.range (n - a)).map (· + a)

/-- The outer seed loop of lines 167-195: skip assigned candidates, start a
new cluster with the next id, then forward-scan the rest of the sorted
list. -/
def outer_scan (cands : List SubCand) :
    List ℕ → ℕ → List (Option ℕ) → List (Option ℕ)
  | [], _, assign => assign
  | i :: is, cid, assign =>
    match cands[i]? with
    | none => outer_scan cands is cid assign
    | some c =>
      if (assign.getD i none).isSome then outer_scan cands is cid assign
      else
        outer_scan cands is (cid + 1)
          (inner_scan cands c (cid + 1) (idxFrom (i + 1) cands.length)
            (assign.set i (some (cid + 1))) [i]).1

/-- Step 2 cluster assignment: all candidates start with `cluster_id = None`
(lines 164-165), then the seed loop assigns ids `1, 2, …`. -/
def assignClusters (cands : List SubCand) : List (Option ℕ) :=
  outer_scan cands (List.range cands.length) 0 (cands.map (fun _ => none))

/-- C1: evaluation of the clustering pass at the failing input.  Three
location-sorted candidates 0.001° apart (all within the 0.003° proximity
threshold of the seed and of each other): the seed sold on day 0, a second
comp sold on day 90 (3 months later), a third sold on day 600 (20 months
after the seed but only 510 days — inside the 18-month window — after the
second member).  The claim (and the code's own comment, line 185) says the
third comp joins the seed's cluster through member two; the code compares
only against the seed, so the third comp gets a new cluster id 2. -/
theorem assignClusters_seed_only_failing_input :
    cluster_proximity ⟨0, 0, 0⟩ ⟨2/1000, 0, 600⟩ = true ∧
    ((600 : ℤ) - 90).natAbs ≤ CLUSTER_MAX_MONTHS * 30 ∧
    ¬(((0 : ℤ) - 600).natAbs ≤ CLUSTER_MAX_MONTHS * 30) ∧
    assignClusters [⟨0, 0, 0⟩, ⟨1/1000, 0, 90⟩, ⟨2/1000, 0, 600⟩] =
      [some 1, some 1, some 2] := by
  refine ⟨?_, by norm_num [CLUSTER_MAX_MONTHS], by norm_num [CLUSTER_MAX_MONTHS], ?_⟩
  · norm_num [cluster_proximity, CLUSTER_PROXIMITY_DEG, abs_le]
  · norm_num [assignClusters, outer_scan, inner_scan, idxFrom, cluster_proximity,
      in_window, CLUSTER_PROXIMITY_DEG, CLUSTER_MAX_MONTHS, List.range,
      List.range.loop, List.getD, abs_le]

/-! ### `build_subdiv_comps.py` Step 3 — appreciation adjustment (235-261) -/

def MAX_ADJUSTMENT_PCT : ℚ := 30

/-- `raw_factor = (1 + annual_rate) ** (months_ago / 12.0)` with
`annual_rate = appr_12mo / 100.0` (lines 247-248), as a real power. -/
noncomputable def raw_factor (appr_12mo months_ago : ℚ) : ℝ :=
  (1 + (appr_12mo : ℝ) / 100) ^ ((months_ago : ℝ) / 12)

/-- `factor = max(1 - MAX_ADJUSTMENT_PCT/100, min(1 + MAX_ADJUSTMENT_PCT/100,
raw_factor))` (line 250). -/
noncomputable def clamp_factor (raw : ℝ) : ℝ :=
  max (1 - (MAX_ADJUSTMENT_PCT : ℝ) / 100) (min (1 + (MAX_ADJUSTMENT_PCT : ℝ) / 100) raw)

/-- The claim's clamp convention: `clamp(x, 0.70, 1.30)`. -/
noncomputable def clamp_spec (x : ℝ) : ℝ := max (70/100) (min (130/100) x)

/-- Step 3 adjustment of one retained comp (lines 237-255): the zip-level
trailing-12-month rate defaults to 0 when the zip has no entry
(`appr_12mo = 0` unless `zipcode in zhvi`), and
`adj_ppsf = round(ppsf * factor)` when `appr_12mo != 0 and months_ago > 0`,
else `adj_ppsf = ppsf`. -/
noncomputable def step3_adj_ppsf (zhvi : String → Option ℚ) (zipcode : String)
    (months_ago : ℚ) (ppsf : ℤ) : ℤ :=
  if (zhvi zipcode).getD 0 ≠ 0 ∧ 0 < months_ago then
    pyroundR ((ppsf : ℝ) * clamp_factor (raw_factor ((zhvi zipcode).getD 0) months_ago))
  else ppsf

/-- C7: for every retained subdivision comp with a nonzero zip-level
trailing-12-month appreciation rate and positive months since sale, the
adjusted price-per-unit-area equals
`round(raw_ppsf * clamp((1 + rate/100) ^ (months/12), 0.70, 1.30))`, and the
multiplier always lies in the ±30% band `[0.70, 1.30]`; a comp whose zip
has no appreciation entry gets a 0% adjustment (adjusted value = raw). -/
theorem step3_appreciation_adjustment (zhvi : String → Option ℚ) (zipcode : String)
    (months_ago : ℚ) (ppsf : ℤ) :
    (zhvi zipcode = none → step3_adj_ppsf zhvi zipcode months_ago ppsf = ppsf) ∧
    (∀ rate : ℚ, zhvi zipcode = some rate → rate ≠ 0 → 0 < months_ago →
      step3_adj_ppsf zhvi zipcode months_ago ppsf =
        pyroundR ((ppsf : ℝ) *
          clamp_spec ((1 + (rate : ℝ) / 100) ^ ((months_ago : ℝ) / 12))) ∧
      (70/100 : ℝ) ≤ clamp_factor (raw_factor rate months_ago) ∧
      clamp_factor (raw_factor rate months_ago) ≤ (130/100 : ℝ)) := by
  constructor
  · intro hnone
    unfold step3_adj_ppsf
    rw [hnone]
    simp
  · intro rate hsome hne hpos
    have hclamp_eq : ∀ x : ℝ, clamp_factor x = clamp_spec x := by
      intro x
      unfold clamp_factor clamp_spec MAX_ADJUSTMENT_PCT
      norm_num
    refine ⟨?_, ?_, ?_⟩
    · unfold step3_adj_ppsf
      rw [hsome]
      rw [if_pos (by simpa using ⟨hne, hpos⟩)]
      rw [hclamp_eq]
      rfl
    · rw [hclamp_eq]
      exact le_max_left _ _
    · rw [hclamp_eq]
      unfold clamp_spec
      exact max_le (by norm_num) (min_le_left _ _)

/-- C7 witness: a comp sold 24 months ago in a zip with +50% trailing-12-month
appreciation gets the clamped multiplier `1.30` (not `1.5² = 2.25`):
`round(600 * 1.30) = 780`, whereas the unclamped factor would give `1350`;
and a zip with no entry passes the raw value through. -/
theorem step3_appreciation_adjustment_witness :
    ((fun z => if z = "91331" then some (50 : ℚ) else none) "91331" = some 50) ∧
    (50 : ℚ) ≠ 0 ∧ (0 : ℚ) < 24 ∧
    step3_adj_ppsf (fun z => if z = "91331" then some (50 : ℚ) else none)
      "91331" 24 600 = 780 ∧
    clamp_spec ((1 + ((50 : ℚ) : ℝ) / 100) ^ (((24 : ℚ) : ℝ) / 12)) = 13/10 ∧
    pyroundR ((600 : ℝ) * (13/10)) = 780 ∧
    pyroundR ((600 : ℝ) * ((1 + ((50 : ℚ) : ℝ) / 100) ^ (((24 : ℚ) : ℝ) / 12))) =
      1350 ∧
    step3_adj_ppsf (fun z => if z = "91331" then some (50 : ℚ) else none)
      "90001" 24 600 = 600 := by
  have hpow : ((1 : ℝ) + ((50 : ℚ) : ℝ) / 100) ^ (((24 : ℚ) : ℝ) / 12) = 9/4 := by
    have h2 : (((24 : ℚ) : ℝ) / 12) = ((2 : ℕ) : ℝ) := by norm_num
    rw [h2, Real.rpow_natCast]
    norm_num
  have hclamp : clamp_spec ((1 + ((50 : ℚ) : ℝ) / 100) ^ (((24 : ℚ) : ℝ) / 12)) =
      13/10 := by
    rw [hpow]
    unfold clamp_spec
    norm_num
  have hround : pyroundR ((600 : ℝ) * (13/10)) = 780 := by
    have : ((600 : ℝ) * (13/10)) = ((780 : ℤ) : ℝ) := by norm_num
    rw [this, pyroundR_intCast]
  have hthm := (step3_appreciation_adjustment
    (fun z => if z = "91331" then some (50 : ℚ) else none) "91331" 24 600).2
    50 rfl (by norm_num) (by norm_num)
  have hround2 : pyroundR (((600 : ℤ) : ℝ) * (13/10)) = 780 := by
    have hc : (((600 : ℤ) : ℝ) * (13/10)) = ((780 : ℤ) : ℝ) := by norm_num
    rw [hc, pyroundR_intCast]
  refine ⟨rfl, by norm_num, by norm_num, ?_, hclamp, hround, ?_, ?_⟩
  · rw [hthm.1, hclamp]
    exact hround2
  · rw [hpow]
    have : ((600 : ℝ) * (9/4)) = ((1350 : ℤ) : ℝ) := by norm_num
    rw [this, pyroundR_intCast]
  · exact (step3_appreciation_adjustment
      (fun z => if z = "91331" then some (50 : ℚ) else none) "90001" 24 600).1 rfl

/-! ### `find_rental_estimate` (`listings_build.py` 1069-1143) -/

/-- A rental comp as stored in `rental_grid`:
`(lat, lng, rent, beds, sqft, prop_type)`. -/
structure RComp where
  lat : ℚ
  lng : ℚ
  rent : ℚ
  beds : ℤ
  sqft : ℚ
  ptype : String
deriving DecidableEq, Repr

def RENTAL_GRID_SIZE : ℚ := 1/100

def SFR_TH_TYPES : List String :=
  ["Single Family Residential", "Townhouse", "Condo/Co-op", "Multi-Family (2-4 Unit)"]

def rcompCell (e : RComp) : ℤ × ℤ :=
  (⌊e.lat / RENTAL_GRID_SIZE⌋, ⌊e.lng / RENTAL_GRID_SIZE⌋)

/-- `collect_comps(radius, min_beds, min_sqft, types_filter)`
(`listings_build.py` 1087-1103): grid-block traversal, keeping
`(rent, beds)` for comps inside the box that pass the bed, square-footage
and property-type filters (`types_filter = None` disables the type
filter). -/
def collect_comps (grid : List RComp) (lat lng radius : ℚ) (min_beds : ℤ)
    (min_sqft : ℚ) (types_filter : Option (List String)) : List (ℚ × ℤ) :=
  (cellBlock (⌊radius / RENTAL_GRID_SIZE⌋ + 1)
      ⌊lat / RENTAL_GRID_SIZE⌋ ⌊lng / RENTAL_GRID_SIZE⌋).flatMap (fun cell =>
    ((grid.filter (fun e => rcompCell e = cell)).filter (fun e =>
        decide (|e.lat - lat| ≤ radius) && decide (|e.lng - lng| ≤ radius) &&
        decide (min_beds ≤ e.beds) &&
        !(decide (0 < min_sqft) && decide (0 < e.sqft) && decide (e.sqft < min_sqft)) &&
        (match types_filter with
         | some ts => decide (e.ptype ∈ ts)
         | none => true))).map (fun e => (e.rent, e.beds)))

/-- Tier 1 radius loop (`0.007` then `0.015`). -/
def rental_tier1 (grid : List RComp) (lat lng : ℚ) :
    List ℚ → Option (ℤ × String × ℕ × ℚ × ℤ)
  | [] => none
  | radius :: rest =>
    if 3 ≤ (collect_comps grid lat lng radius 3 1200 (some SFR_TH_TYPES)).length then
      some (p75Q ((collect_comps grid lat lng radius 3 1200 (some SFR_TH_TYPES)).map
              Prod.fst),
        "rental-comp",
        (collect_comps grid lat lng radius 3 1200 (some SFR_TH_TYPES)).length,
        milesOf radius,
        median_val ((collect_comps grid lat lng radius 3 1200 (some SFR_TH_TYPES)).map
          Prod.snd))
    else rental_tier1 grid lat lng rest

/-- `find_rental_estimate(lat, lng, zipcode, safmr_3br)`: 5-tier priority —
spatial comps at 0.5/1 mile, wide 2-mile comps, the 2+BR `rental-adj` tier
with its 20% sub-3BR uplift, ZORI zip rent × 1.40, SAFMR × 1.25, else
`(0, "none", 0, 0, 0)`.  Returns
`(est_rent, method, comp_count, radius_mi, median_beds)`. -/
def find_rental_estimate (grid : List RComp) (zori_by_zip : String → Option ℤ)
    (lat lng : ℚ) (zipcode : String) (safmr_3br : ℚ) : ℤ × String × ℕ × ℚ × ℤ :=
  match rental_tier1 grid lat lng [7/1000, 15/1000] with
  | some r => r
  | none =>
    if 3 ≤ (collect_comps grid lat lng (29/1000) 3 1200 (some SFR_TH_TYPES)).length then
      (p75Q ((collect_comps grid lat lng (29/1000) 3 1200 (some SFR_TH_TYPES)).map
          Prod.fst),
        "rental-comp-wide",
        (collect_comps grid lat lng (29/1000) 3 1200 (some SFR_TH_TYPES)).length,
        milesOf (29/1000),
        median_val ((collect_comps grid lat lng (29/1000) 3 1200
          (some SFR_TH_TYPES)).map Prod.snd))
    else if 3 ≤ (collect_comps grid lat lng (15/1000) 2 900 none).length then
      ((if median_val ((collect_comps grid lat lng (15/1000) 2 900 none).map
            Prod.snd) < 3 then
          pyroundQ ((p75Q ((collect_comps grid lat lng (15/1000) 2 900 none).map
            Prod.fst) : ℚ) * (120/100))
        else p75Q ((collect_comps grid lat lng (15/1000) 2 900 none).map Prod.fst)),
        "rental-adj",
        (collect_comps grid lat lng (15/1000) 2 900 none).length,
        milesOf (15/1000),
        median_val ((collect_comps grid lat lng (15/1000) 2 900 none).map Prod.snd))
    else
      match zori_by_zip zipcode with
      | some z => (pyroundQ ((z : ℚ) * (140/100)), "zori", 0, 0, 0)
      | none =>
        if 0 < safmr_3br then
          (pyroundQ (safmr_3br * (125/100)), "safmr", 0, 0, 0)
        else (0, "none", 0, 0, 0)

/-- C9: when every spatial rental tier fails the 3-comp threshold and the zip
is absent from the ZORI rent index, a positive government fair-market rent
yields `round(FMR × 1.25)` with `method = "safmr"` and comp count 0; a
missing or non-positive FMR yields the zero estimate with
`method = "none"` instead of an error. -/
theorem find_rental_estimate_safmr_fallback (grid : List RComp)
    (zori_by_zip : String → Option ℤ) (lat lng : ℚ) (zipcode : String)
    (safmr_3br : ℚ)
    (h1 : (collect_comps grid lat lng (7/1000) 3 1200 (some SFR_TH_TYPES)).length < 3)
    (h2 : (collect_comps grid lat lng (15/1000) 3 1200 (some SFR_TH_TYPES)).length < 3)
    (h3 : (collect_comps grid lat lng (29/1000) 3 1200 (some SFR_TH_TYPES)).length < 3)
    (h4 : (collect_comps grid lat lng (15/1000) 2 900 none).length < 3)
    (h5 : zori_by_zip zipcode = none) :
    (0 < safmr_3br →
      find_rental_estimate grid zori_by_zip lat lng zipcode safmr_3br =
        (pyroundQ (safmr_3br * (125/100)), "safmr", 0, 0, 0)) ∧
    (safmr_3br ≤ 0 →
      find_rental_estimate grid zori_by_zip lat lng zipcode safmr_3br =
        (0, "none", 0, 0, 0)) := by
  have htier1 : rental_tier1 grid lat lng [7/1000, 15/1000] = none := by
    rw [rental_tier1, if_neg (by omega), rental_tier1, if_neg (by omega), rental_tier1]
  constructor <;> intro hs <;>
    (unfold find_rental_estimate
     rw [htier1]
     dsimp only
     rw [if_neg (by omega), if_neg (by omega), h5])
  · rw [if_pos hs]
  · rw [if_neg (by exact not_lt.mpr hs)]

theorem collect_comps_nil (lat lng radius : ℚ) (min_beds : ℤ) (min_sqft : ℚ)
    (types_filter : Option (List String)) :
    collect_comps [] lat lng radius min_beds min_sqft types_filter = [] := by
  unfold collect_comps
  induction cellBlock (⌊radius / RENTAL_GRID_SIZE⌋ + 1)
      ⌊lat / RENTAL_GRID_SIZE⌋ ⌊lng / RENTAL_GRID_SIZE⌋ with
  | nil => rfl
  | cons c cs ih => simpa using ih

/-- C9 witness: zero rental comps, an empty ZORI index and FMR `2000` give
`(2500, "safmr", 0, 0, 0)`; with FMR `0` the result is `(0, "none", 0, 0, 0)`. -/
theorem find_rental_estimate_safmr_fallback_witness :
    find_rental_estimate [] (fun _ => none) 0 0 "90001" 2000 =
      (2500, "safmr", 0, 0, 0) ∧
    find_rental_estimate [] (fun _ => none) 0 0 "90001" 0 =
      (0, "none", 0, 0, 0) := by
  have hn : ∀ radius mb ms tf, (collect_comps [] 0 0 radius mb ms tf).length < 3 := by
    intro radius mb ms tf
    rw [collect_comps_nil]
    norm_num
  constructor
  · have h := (find_rental_estimate_safmr_fallback [] (fun _ => none) 0 0 "90001" 2000
      (hn _ _ _ _) (hn _ _ _ _) (hn _ _ _ _) (hn _ _ _ _) rfl).1 (by norm_num)
    rw [h]
    have hv : (2000 : ℚ) * (125/100) = ((2500 : ℤ) : ℚ) := by norm_num
    rw [hv, pyroundQ_intCast]
  · exact (find_rental_estimate_safmr_fallback [] (fun _ => none) 0 0 "90001" 0
      (hn _ _ _ _) (hn _ _ _ _) (hn _ _ _ _) (hn _ _ _ _) rfl).2 (by norm_num)

/-! ### `fit_size_curve` (`build_comps.py` 146-190)

Weighted least squares `price = intercept + slope * sqft` over the comps in
the qualifying livable-area range (`ARV_CONFIG`: `sqft_min = 1000`,
`sqft_max = 3500`, `min_slope = 200`, `max_slope = 1500`). -/

/-- A comp as consumed by `fit_size_curve`: square footage, price, the
price-per-unit-area used by the validity filter, and the recency weight
(`c.get('rw', 0.5)`). -/
structure SCComp where
  sqft : ℚ
  price : ℚ
  ppsf : ℚ
  rw : ℚ
deriving DecidableEq, Repr

/-- `valid = [c for c in comps_list if sqft_min <= sqft <= sqft_max and
ppsf > 0]`. -/
def sc_valid (comps : List SCComp) : List SCComp :=
  comps.filter (fun c =>
    decide (1000 ≤ c.sqft) && decide (c.sqft ≤ 3500) && decide (0 < c.ppsf))

def sc_sw (l : List SCComp) : ℚ := (l.map (fun c => c.rw)).sum
def sc_sx (l : List SCComp) : ℚ := (l.map (fun c => c.rw * c.sqft)).sum
def sc_sy (l : List SCComp) : ℚ := (l.map (fun c => c.rw * c.price)).sum
def sc_sxx (l : List SCComp) : ℚ := (l.map (fun c => c.rw * c.sqft * c.sqft)).sum
def sc_sxy (l : List SCComp) : ℚ := (l.map (fun c => c.rw * c.sqft * c.price)).sum

def sc_denom (l : List SCComp) : ℚ := sc_sw l * sc_sxx l - sc_sx l * sc_sx l

def sc_slope (l : List SCComp) : ℚ :=
  (sc_sw l * sc_sxy l - sc_sx l * sc_sy l) / sc_denom l

def sc_intercept (l : List SCComp) : ℚ := (sc_sy l - sc_slope l * sc_sx l) / sc_sw l

def sc_predicted (l : List SCComp) (target_sf : ℚ) : ℚ :=
  sc_intercept l + sc_slope l * target_sf

def sc_residuals (l : List SCComp) : List ℚ :=
  l.map (fun c => c.price - (sc_intercept l + sc_slope l * c.sqft))

def sc_mean_resid (l : List SCComp) : ℚ :=
  (sc_residuals l).sum / ((sc_residuals l).length : ℚ)

def sc_var_resid (l : List SCComp) : ℚ :=
  ((sc_residuals l).map (fun r => (r - sc_mean_resid l) ^ 2)).sum /
    ((max 1 (l.length - 2) : ℕ) : ℚ)

/-- `fit_size_curve(comps_list, target_sf)`: `None` when fewer than 3
qualifying comps, `abs(denom) < 1e-10`, the slope is outside
`[min_slope, max_slope]`, or the predicted price at the target is
non-positive; otherwise `(ppsf_at_target, price_at_target, stdev)` with
`stdev = round(var_resid ** 0.5 / target_sf)`. -/
noncomputable def fit_size_curve (comps : List SCComp) (target_sf : ℚ) :
    Option (ℤ × ℤ × ℤ) :=
  if (sc_valid comps).length < 3 then none
  else if |sc_denom (sc_valid comps)| < 1/10^10 then none
  else if sc_slope (sc_valid comps) < 200 ∨ 1500 < sc_slope (sc_valid comps) then none
  else if sc_predicted (sc_valid comps) target_sf ≤ 0 then none
  else some (pyroundQ (sc_predicted (sc_valid comps) target_sf / target_sf),
    pyroundQ (sc_predicted (sc_valid comps) target_sf),
    pyroundR (Real.sqrt ((sc_var_resid (sc_valid comps) : ℚ) : ℝ) / (target_sf : ℝ)))

/-- C8: `fit_size_curve` returns `None` exactly when fewer than 3 comps lie
in the qualifying livable-area range with positive price-per-unit-area, or
the weighted fit is degenerate (`|denom| < 1e-10`), or its slope falls
outside the sane $200–$1,500-per-SF bound, or the predicted price at the
target area is non-positive; in every other case it returns the rounded
predicted price-per-unit-area at the target, the rounded predicted total
price, and the residual-stdev uncertainty normalized to price-per-unit-area. -/
theorem fit_size_curve_none_iff (comps : List SCComp) (target_sf : ℚ) :
    (fit_size_curve comps target_sf = none ↔
      ((sc_valid comps).length < 3 ∨
       |sc_denom (sc_valid comps)| < 1/10^10 ∨
       sc_slope (sc_valid comps) < 200 ∨
       1500 < sc_slope (sc_valid comps) ∨
       sc_predicted (sc_valid comps) target_sf ≤ 0)) ∧
    (¬((sc_valid comps).length < 3 ∨
       |sc_denom (sc_valid comps)| < 1/10^10 ∨
       sc_slope (sc_valid comps) < 200 ∨
       1500 < sc_slope (sc_valid comps) ∨
       sc_predicted (sc_valid comps) target_sf ≤ 0) →
      fit_size_curve comps target_sf =
        some (pyroundQ (sc_predicted (sc_valid comps) target_sf / target_sf),
          pyroundQ (sc_predicted (sc_valid comps) target_sf),
          pyroundR (Real.sqrt ((sc_var_resid (sc_valid comps) : ℚ) : ℝ) /
            (target_sf : ℝ)))) := by
  constructor
  · unfold fit_size_curve
    split_ifs with h1 h2 h3 h4
    · exact iff_of_true rfl (Or.inl h1)
    · exact iff_of_true rfl (Or.inr (Or.inl h2))
    · refine iff_of_true rfl ?_
      rcases h3 with h | h
      · exact Or.inr (Or.inr (Or.inl h))
      · exact Or.inr (Or.inr (Or.inr (Or.inl h)))
    · exact iff_of_true rfl (Or.inr (Or.inr (Or.inr (Or.inr h4))))
    · refine iff_of_false (by simp) ?_
      intro hdisj
      rcases hdisj with h | h | h | h | h
      exacts [h1 h, h2 h, h3 (Or.inl h), h3 (Or.inr h), h4 h]
  · intro hnot
    unfold fit_size_curve
    rw [if_neg (fun h => hnot (Or.inl h)),
      if_neg (fun h => hnot (Or.inr (Or.inl h))),
      if_neg (fun h => h.elim
        (fun hc => hnot (Or.inr (Or.inr (Or.inl hc))))
        (fun hd => hnot (Or.inr (Or.inr (Or.inr (Or.inl hd)))))),
      if_neg (fun h => hnot (Or.inr (Or.inr (Or.inr (Or.inr h)))))]

/-- Three full-weight comps lying exactly on the line `price = 300 * sqft`. -/
def scExample : List SCComp :=
  [⟨1000, 300000, 300, 1⟩, ⟨2000, 600000, 300, 1⟩, ⟨3000, 900000, 300, 1⟩]

/-- C8 witness: on a perfect line `price = 300 * sqft` none of the rejection
conditions fire and the fit returns `$300/SF` at 1,750 SF, a `$525,000`
predicted price, and zero residual deviation. -/
theorem fit_size_curve_none_iff_witness :
    ¬((sc_valid scExample).length < 3 ∨
      |sc_denom (sc_valid scExample)| < 1/10^10 ∨
      sc_slope (sc_valid scExample) < 200 ∨
      1500 < sc_slope (sc_valid scExample) ∨
      sc_predicted (sc_valid scExample) 1750 ≤ 0) ∧
    fit_size_curve scExample 1750 = some (300, 525000, 0) := by
  have hvalid : sc_valid scExample = scExample := by
    norm_num [sc_valid, scExample, List.filter]
  have hslope : sc_slope (sc_valid scExample) = 300 := by
    rw [hvalid]
    norm_num [sc_slope, sc_denom, sc_sw, sc_sx, sc_sy, sc_sxx, sc_sxy, scExample]
  have hintercept : sc_intercept (sc_valid scExample) = 0 := by
    rw [hvalid]
    norm_num [sc_intercept, sc_slope, sc_denom, sc_sw, sc_sx, sc_sy, sc_sxx, sc_sxy,
      scExample]
  have hpred : sc_predicted (sc_valid scExample) 1750 = 525000 := by
    unfold sc_predicted
    rw [hslope, hintercept]
    norm_num
  have hdenom : sc_denom (sc_valid scExample) = 6000000 := by
    rw [hvalid]
    norm_num [sc_denom, sc_sw, sc_sx, sc_sxx, scExample]
  have hvar : sc_var_resid (sc_valid scExample) = 0 := by
    rw [hvalid]
    norm_num [sc_var_resid, sc_residuals, sc_mean_resid, sc_intercept, sc_slope,
      sc_denom, sc_sw, sc_sx, sc_sy, sc_sxx, sc_sxy, scExample]
  have hlen : (sc_valid scExample).length = 3 := by
    rw [hvalid]
    rfl
  have hnot : ¬((sc_valid scExample).length < 3 ∨
      |sc_denom (sc_valid scExample)| < 1/10^10 ∨
      sc_slope (sc_valid scExample) < 200 ∨
      1500 < sc_slope (sc_valid scExample) ∨
      sc_predicted (sc_valid scExample) 1750 ≤ 0) := by
    rw [hlen, hdenom, hslope, hpred]
    norm_num
  refine ⟨hnot, ?_⟩
  rw [(fit_size_curve_none_iff scExample 1750).2 hnot]
  rw [hpred, hvar]
  have h1 : pyroundQ ((525000 : ℚ) / 1750) = 300 := by
    have : (525000 : ℚ) / 1750 = ((300 : ℤ) : ℚ) := by norm_num
    rw [this, pyroundQ_intCast]
  have h2 : pyroundQ ((525000 : ℚ)) = 525000 := by
    have : (525000 : ℚ) = ((525000 : ℤ) : ℚ) := by norm_num
    rw [this, pyroundQ_intCast]
  have h3 : pyroundR (Real.sqrt (((0 : ℚ) : ℝ)) / ((1750 : ℚ) : ℝ)) = 0 := by
    have hz : ((0 : ℚ) : ℝ) = (0 : ℝ) := by norm_num
    rw [hz, Real.sqrt_zero, zero_div]
    have : (0 : ℝ) = ((0 : ℤ) : ℝ) := by norm_num
    rw [this, pyroundR_intCast]
  rw [h1, h2, h3]

/-! ### The `listings.js` writer (`listings_build.py` 1252-1258)

`build_ts = datetime.now(timezone.utc).strftime(...)` is the wall-clock
build timestamp; the serialized listings body (`json.dumps(listings)`) is a
pure function of the records and is taken here as a parameter. -/

/-- `js = f"const LISTINGS_META = {{builtAt:\"{build_ts}\",count:{len(listings)}}};\n"`
followed by `"const LOADED_LISTINGS = " + json.dumps(listings) + ";"`. -/
def listings_js (build_ts : String) (count : ℕ) (body : String) : String :=
  "const LISTINGS_META = \x7bbuiltAt:\"" ++ build_ts ++ "\",count:" ++
    toString count ++ "\x7d;\n" ++ "const LOADED_LISTINGS = " ++ body ++ ";"

/-- C10 counterexample: two runs of the pipeline over identical, unchanged
records but at different wall-clock times write byte-different `listings.js`
files, because the first line embeds the `builtAt` timestamp — refuting the
claim that the written output depends on the input records alone. -/
theorem listings_js_counterexample :
    listings_js "2026-01-01T00:00:00Z" 0 "[]" ≠
      listings_js "2026-01-02T00:00:00Z" 0 "[]" := by
  decide

/-- C10 amended: the written `listings.js` is a deterministic function of
the serialized records and the build timestamp alone — for fixed records,
two runs produce byte-identical output exactly when their `builtAt`
timestamps coincide; runs at different clock times differ. -/
theorem listings_js_deterministic (ts1 ts2 : String) (count : ℕ) (body : String) :
    listings_js ts1 count body = listings_js ts2 count body ↔ ts1 = ts2 := by
  constructor
  · intro h
    have hd := congrArg String.data h
    simp only [listings_js, String.data_append, List.append_assoc] at hd
    exact String.ext (List.append_cancel_right (List.append_cancel_left hd))
  · rintro rfl
    rfl

end SB1123
